import Mathlib

/-!
# Verification of the rCalc arithmetic expression evaluator

Shallow embedding of `src/parser.rs`: the lexer (`tokenize`, `Token::new`),
the shunting-yard converter (`shunting_yard`) and the RPN evaluator
(`calculate`), composed by `evaluate`.  Strings are Lean `String`s scanned
as their character lists; `Vec<Token>` becomes `List Token`; the Rust
`Result<_, &'static str>` becomes `Except Err _` with one `Err`
constructor per distinct error string of the source, plus `panicked` for
a Rust `panic!` reached through `.unwrap()` on an `Err` value.
-/

namespace RCalc

/-! Mathlib seals the arithmetic of `ℚ` behind `@[irreducible]`, which
blocks kernel evaluation; the program's claims are settled on concrete
inputs, so the model uses the following kernel-computable operations on
`ℚ`, each proved equal to the corresponding Mathlib operation. -/

/-- Kernel-computable addition on `ℚ`. -/
def qAdd (a b : ℚ) : ℚ := mkRat (a.num * b.den + b.num * a.den) (a.den * b.den)

/-- Kernel-computable subtraction on `ℚ`. -/
def qSub (a b : ℚ) : ℚ := mkRat (a.num * b.den - b.num * a.den) (a.den * b.den)

/-- Kernel-computable multiplication on `ℚ`. -/
def qMul (a b : ℚ) : ℚ := mkRat (a.num * b.num) (a.den * b.den)

/-- Kernel-computable negation on `ℚ`. -/
def qNeg (a : ℚ) : ℚ := mkRat (-a.num) a.den

/-- Kernel-computable inverse on `ℚ` (`qInv 0 = 0`, as for `Rat.inv`). -/
def qInv (a : ℚ) : ℚ := Rat.divInt a.den a.num

/-- Kernel-computable division on `ℚ`. -/
def qDiv (a b : ℚ) : ℚ := qMul a (qInv b)

/-- Kernel-computable natural power on `ℚ`. -/
def qNpow (a : ℚ) : ℕ → ℚ
  | 0 => 1
  | n + 1 => qMul (qNpow a n) a

/-- Kernel-computable integer power on `ℚ`. -/
def qZpow (a : ℚ) : ℤ → ℚ
  | .ofNat n => qNpow a n
  | .negSucc n => qInv (qNpow a (n + 1))

theorem qAdd_eq (a b : ℚ) : qAdd a b = a + b := (Rat.add_def' a b).symm

theorem qSub_eq (a b : ℚ) : qSub a b = a - b := (Rat.sub_def' a b).symm

theorem qMul_eq (a b : ℚ) : qMul a b = a * b := by
  rw [qMul, Rat.mul_def, Rat.normalize_eq_mkRat]

theorem qNeg_eq (a : ℚ) : qNeg a = -a := by
  rw [qNeg, ← Rat.neg_mkRat, Rat.mkRat_self]

theorem qInv_eq (a : ℚ) : qInv a = a⁻¹ := (Rat.inv_def a).symm

theorem qDiv_eq (a b : ℚ) : qDiv a b = a / b := by
  rw [qDiv, qMul_eq, qInv_eq, div_eq_mul_inv]

theorem qNpow_eq (a : ℚ) (n : ℕ) : qNpow a n = a ^ n := by
  induction n with
  | zero => rfl
  | succ n ih => rw [qNpow, qMul_eq, ih, pow_succ]

theorem qZpow_eq (a : ℚ) (e : ℤ) : qZpow a e = a ^ e := by
  cases e with
  | ofNat n => rw [qZpow, qNpow_eq, Int.ofNat_eq_coe, zpow_natCast]
  | negSucc n => rw [qZpow, qInv_eq, qNpow_eq, zpow_negSucc]

/-- Idealised model of the `f64` values the program manipulates: exact
rationals together with the IEEE-754 special values.  All numeric
literals the program parses are decimal, hence exact here; the arithmetic
below agrees with IEEE-754 double arithmetic whenever the operands and
the exact result are representable, which covers every computation the
claims exercise.  Signed zero is not modelled (a finite zero behaves as
`+0.0`). -/
inductive R where
  | finite (q : ℚ)
  | posInf
  | negInf
  | nan
deriving DecidableEq, Repr

/-- IEEE-754 addition `l + r` on the model. -/
def R.add : R → R → R
  | .finite a, .finite b => .finite (qAdd a b)
  | .finite _, .posInf => .posInf
  | .finite _, .negInf => .negInf
  | .posInf, .finite _ => .posInf
  | .negInf, .finite _ => .negInf
  | .posInf, .posInf => .posInf
  | .negInf, .negInf => .negInf
  | _, _ => .nan

/-- IEEE-754 subtraction `l - r` on the model. -/
def R.sub : R → R → R
  | .finite a, .finite b => .finite (qSub a b)
  | .finite _, .posInf => .negInf
  | .finite _, .negInf => .posInf
  | .posInf, .finite _ => .posInf
  | .negInf, .finite _ => .negInf
  | .posInf, .negInf => .posInf
  | .negInf, .posInf => .negInf
  | _, _ => .nan

/-- IEEE-754 multiplication `l * r` on the model (the sign of a rational
is the sign of its numerator, so the sign tests inspect `Rat.num`). -/
def R.mul : R → R → R
  | .finite a, .finite b => .finite (qMul a b)
  | .finite a, .posInf => if 0 < a.num then .posInf else if a.num < 0 then .negInf else .nan
  | .finite a, .negInf => if 0 < a.num then .negInf else if a.num < 0 then .posInf else .nan
  | .posInf, .finite b => if 0 < b.num then .posInf else if b.num < 0 then .negInf else .nan
  | .negInf, .finite b => if 0 < b.num then .negInf else if b.num < 0 then .posInf else .nan
  | .posInf, .posInf => .posInf
  | .posInf, .negInf => .negInf
  | .negInf, .posInf => .negInf
  | .negInf, .negInf => .posInf
  | _, _ => .nan

/-- IEEE-754 division `l / r` on the model: a nonzero finite value divided
by zero is a signed infinity, `0/0` is `nan`, never an error. -/
def R.div : R → R → R
  | .finite a, .finite b =>
      if b.num = 0 then if 0 < a.num then .posInf else if a.num < 0 then .negInf else .nan
      else .finite (qDiv a b)
  | .finite _, .posInf => .finite 0
  | .finite _, .negInf => .finite 0
  | .posInf, .finite b => if 0 ≤ b.num then .posInf else .negInf
  | .negInf, .finite b => if 0 ≤ b.num then .negInf else .posInf
  | _, _ => .nan

/-- Model of Rust `f64::powf l r` on the cases the program exercises
exactly: a finite base raised to an integral finite exponent is exact
rational exponentiation, with the IEEE-754 special case `0^negative =
+inf`.  A non-integral exponent or a special operand generally yields a
rounded transcendental value in IEEE-754; those cases are modelled
conservatively as `nan` and are exercised by no claim. -/
def R.powf : R → R → R
  | .finite b, .finite e =>
      if e.den = 1 then
        if b.num = 0 ∧ e.num < 0 then .posInf
        else .finite (qZpow b e.num)
      else .nan
  | _, _ => .nan

/-- `TokenType` from `src/parser.rs` (the source spells the last
constructor `ClosingParaenthesis`). -/
inductive TokenType where
  | Plus
  | Minus
  | Multiply
  | Divide
  | Power
  | Number
  | OpeningParenthesis
  | ClosingParaenthesis
deriving DecidableEq, Repr

/-- `Associativity` from `src/parser.rs`. -/
inductive Associativity where
  | Left
  | Right
deriving DecidableEq, Repr

/-- `Token` from `src/parser.rs`: kind, numeric payload, precedence and
associativity. -/
structure Token where
  type : TokenType
  value : R
  precedence : Nat
  associativity : Associativity
deriving DecidableEq, Repr

/-- `ParserState` from `src/parser.rs`: the lexer state machine. -/
inductive ParserState where
  | NONE
  | OPERATOR
  | PARENTHESIS
  | Number
deriving DecidableEq, Repr

/-- One constructor per distinct error outcome of the source.  The Rust
code returns `&'static str` messages; `panicked` stands for the process
abort caused by `.unwrap()` on an `Err` (or `.expect` on a failed parse),
which is an outcome distinct from every returned error. -/
inductive Err where
  | invalidCharacter
  | invalidEndOfExpression
  | invalidLexeme
  | expectedOpeningBracket
  | numberOnOpStack
  | errorParsingExpression
  | panicked
deriving DecidableEq, Repr

/-- `Token::is_operator`. -/
def Token.isOperator (t : Token) : Bool :=
  match t.type with
  | .Divide | .Multiply | .Plus | .Minus | .Power => true
  | _ => false

/-- The regex `^-?\d+\.?\d*$` of `Token::new`, matched after a possible
leading minus sign: one or more digits, then optionally a dot followed by
zero or more digits. -/
def numBody (s : List Char) : Bool :=
  let ds := s.takeWhile (·.isDigit)
  let rest := s.dropWhile (·.isDigit)
  decide (ds ≠ []) &&
    (match rest with
     | [] => true
     | '.' :: tl => tl.all (·.isDigit)
     | _ => false)

/-- Whether a lexeme matches the numeric-literal regex of `Token::new`. -/
def isNumLit (s : List Char) : Bool :=
  match s with
  | '-' :: rest => numBody rest
  | _ => numBody s

/-- Value of a digit run, most significant digit first. -/
def digitsVal (ds : List Char) : Nat :=
  ds.foldl (fun a c => a * 10 + (c.toNat - '0'.toNat)) 0

/-- Exact value of a decimal lexeme accepted by `isNumLit`; models Rust
`str::parse::<f64>` on those lexemes (exact where the decimal is
representable, which holds for every literal the claims exercise). -/
def parseNumBody (s : List Char) : ℚ :=
  let ds := s.takeWhile (·.isDigit)
  let rest := s.dropWhile (·.isDigit)
  qAdd (mkRat (digitsVal ds) 1)
    (match rest with
     | '.' :: tl => mkRat (digitsVal tl) (10 ^ tl.length)
     | _ => 0)

/-- Signed decimal parse, the `content.parse()` of `Token::new`. -/
def parseNum (s : List Char) : ℚ :=
  match s with
  | '-' :: rest => qNeg (parseNumBody rest)
  | _ => parseNumBody s

/-- `Token::new` from `src/parser.rs`: the regex cascade, in source
order. -/
def Token.new (content : List Char) : Except Err Token :=
  if content = ['+'] then .ok ⟨.Plus, .finite 0, 2, .Left⟩
  else if content = ['-'] then .ok ⟨.Minus, .finite 0, 2, .Left⟩
  else if content = ['*'] then .ok ⟨.Multiply, .finite 0, 3, .Left⟩
  else if content = ['/'] then .ok ⟨.Divide, .finite 0, 3, .Left⟩
  else if content = ['^'] then .ok ⟨.Power, .finite 0, 4, .Right⟩
  else if isNumLit content then .ok ⟨.Number, .finite (parseNum content), 0, .Right⟩
  else if content = ['('] then .ok ⟨.OpeningParenthesis, .finite 0, 0, .Right⟩
  else if content = [')'] then .ok ⟨.ClosingParaenthesis, .finite 0, 0, .Right⟩
  else .error .invalidLexeme

/-- The `v.push(Token::new(&buffer).unwrap())` idiom of `tokenize`: on an
`Err` from `Token::new` the Rust program panics, modelled by the
`panicked` outcome. -/
def pushTok (buffer : List Char) (v : List Token) : Except Err (List Token) :=
  match Token.new buffer with
  | .ok t => .ok (v ++ [t])
  | .error _ => .error .panicked

/-- The mutable scan state of `tokenize`: tokens emitted so far, machine
state, current lexeme buffer. -/
structure LexSt where
  v : List Token
  state : ParserState
  buffer : List Char
deriving DecidableEq, Repr

/-- One character step of the `tokenize` loop, transcribing the branch
structure of the source.  A character matching no branch of the current
state leaves the scan state unchanged (the source's silent drop). -/
def lexStep (st : LexSt) (c : Char) : Except Err LexSt :=
  if c.isAlpha then .error .invalidCharacter
  else if st.state = .Number then
    if c.isDigit ∨ c = '.' then .ok ⟨st.v, .Number, st.buffer ++ [c]⟩
    else if c = '^' ∨ c = '*' ∨ c = '/' ∨ c = '-' ∨ c = '+' then
      (pushTok st.buffer st.v).map (fun v => ⟨v, .OPERATOR, [c]⟩)
    else if c = '(' ∨ c = ')' then
      (pushTok st.buffer st.v).map (fun v => ⟨v, .PARENTHESIS, [c]⟩)
    else .ok st
  else if st.state = .OPERATOR then
    if c = '-' ∨ c.isDigit then
      (pushTok st.buffer st.v).map (fun v => ⟨v, .Number, [c]⟩)
    else if c = '(' ∨ c = ')' then
      (pushTok st.buffer st.v).map (fun v => ⟨v, .PARENTHESIS, [c]⟩)
    else .ok st
  else if st.state = .PARENTHESIS then
    if c = '-' ∨ c.isDigit then
      (pushTok st.buffer st.v).map (fun v => ⟨v, .Number, [c]⟩)
    else if c = '^' ∨ c = '*' ∨ c = '/' ∨ c = '-' ∨ c = '+' then
      (pushTok st.buffer st.v).map (fun v => ⟨v, .OPERATOR, [c]⟩)
    else if c = '(' ∨ c = ')' then
      (pushTok st.buffer st.v).map (fun v => ⟨v, .PARENTHESIS, [c]⟩)
    else .ok st
  else
    if c.isDigit ∨ c = '-' then .ok ⟨st.v, .Number, st.buffer ++ [c]⟩
    else if c = '(' then .ok ⟨st.v, .PARENTHESIS, st.buffer ++ [c]⟩
    else .ok st

/-- `tokenize` from `src/parser.rs`: scan every character, then flush the
final buffer when it is non-empty in the `Number` or `PARENTHESIS` state,
else fail with the source's "Invalid end of expression". -/
def tokenize (content : String) : Except Err (List Token) := do
  let st ← content.data.foldlM lexStep ⟨[], .NONE, []⟩
  if st.buffer ≠ [] ∧ (st.state = .Number ∨ st.state = .PARENTHESIS) then
    pushTok st.buffer st.v
  else
    .error .invalidEndOfExpression

/-- The state of `shunting_yard`: the postfix accumulator
(`reverse_notation` in the source, renamed here) and the operator stack,
head of the list being the stack top. -/
structure SYSt where
  rpn : List Token
  stack : List Token
deriving DecidableEq, Repr

/-- The closing-parenthesis loop of `shunting_yard`: pop operators into
the output until an `OpeningParenthesis` appears at the top and discard
it; an emptied stack is the source's "Expected opening bracket" error. -/
def popUntilOpen (out : List Token) : List Token → Except Err SYSt
  | [] => .error .expectedOpeningBracket
  | s :: rest =>
    if s.type = .OpeningParenthesis then .ok ⟨out, rest⟩
    else popUntilOpen (out ++ [s]) rest

/-- The operator loop of `shunting_yard`: pop stack entries of strictly
higher precedence, or equal precedence and `Left` associativity, into the
output. -/
def popWhileHigher (t : Token) (out : List Token) : List Token → List Token × List Token
  | [] => (out, [])
  | s :: rest =>
    if s.precedence > t.precedence ∨
        (s.precedence = t.precedence ∧ s.associativity = .Left) then
      popWhileHigher t (out ++ [s]) rest
    else (out, s :: rest)

/-- One token step of the `shunting_yard` loop. -/
def syStep (st : SYSt) (t : Token) : Except Err SYSt :=
  if t.type = .Number then .ok ⟨st.rpn ++ [t], st.stack⟩
  else if t.type = .OpeningParenthesis then .ok ⟨st.rpn, t :: st.stack⟩
  else if t.type = .ClosingParaenthesis then popUntilOpen st.rpn st.stack
  else if t.isOperator then
    let p := popWhileHigher t st.rpn st.stack
    .ok ⟨p.1, t :: p.2⟩
  else .ok st

/-- `shunting_yard` from `src/parser.rs`: process every token, then drain
the remaining stack into the output in pop order — a leftover
`OpeningParenthesis` is drained silently, exactly as in the source. -/
def shunting_yard (tokens : List Token) : Except Err (List Token) := do
  let st ← tokens.foldlM syStep ⟨[], []⟩
  return st.rpn ++ st.stack

/-- The `match t.get_type()` arm of `calculate` applied once both
operands are present. -/
def applyOp : TokenType → R → R → Except Err R
  | .Divide, l, r => .ok (l.div r)
  | .Multiply, l, r => .ok (l.mul r)
  | .Minus, l, r => .ok (l.sub r)
  | .Plus, l, r => .ok (l.add r)
  | .Power, l, r => .ok (l.powf r)
  | _, _, _ => .error .numberOnOpStack

/-- One token step of the `calculate` loop over the numeric stack (head
is the stack top).  A `Number` pushes its value; an operator pops the
right then the left operand and pushes the result, but when fewer than
two values are present the pops still remove what is there and nothing
is pushed back — the source's silent skip. -/
def calcStep (stack : List R) (t : Token) : Except Err (List R) :=
  let s1 := if t.type = .Number then t.value :: stack else stack
  if t.isOperator then
    match s1 with
    | r :: l :: rest => (applyOp t.type l r).map (fun x => x :: rest)
    | _ => .ok []
  else .ok s1

/-- `calculate` from `src/parser.rs`: fold the RPN tokens over the
numeric stack, then succeed exactly when one value remains, else fail
with the source's "Error parsing expresion". -/
def calculate (tokens : List Token) : Except Err R := do
  let processing_numbers ← tokens.foldlM calcStep []
  match processing_numbers with
  | [x] => .ok x
  | _ => .error .errorParsingExpression

/-- `evaluate` from `src/parser.rs`: tokenize, convert, evaluate,
propagating the first error. -/
def evaluate (expression : String) : Except Err R :=
  match tokenize expression with
  | .ok v =>
    match shunting_yard v with
    | .ok s => calculate s
    | .error x => .error x
  | .error e => .error e

/-- Decidable equality for `Except`, used to settle concrete runs of the
embedded program by evaluation. -/
instance {ε α : Type} [DecidableEq ε] [DecidableEq α] : DecidableEq (Except ε α) := fun x y =>
  match x, y with
  | .ok a, .ok b =>
    if h : a = b then isTrue (by rw [h]) else isFalse (fun he => by cases he; exact h rfl)
  | .error a, .error b =>
    if h : a = b then isTrue (by rw [h]) else isFalse (fun he => by cases he; exact h rfl)
  | .ok _, .error _ => isFalse (fun he => by cases he)
  | .error _, .ok _ => isFalse (fun he => by cases he)

/-- C1: the claim says an input left unbalanced by a leftover opening
parenthesis must fail; the code instead drains the leftover
`OpeningParenthesis` into the postfix output, `calculate` skips it, and
`evaluate "(1+2"` silently returns `Ok(3.0)`. -/
theorem c1_unbalanced_open_paren_accepted :
    (tokenize "(1+2" >>= shunting_yard).map (List.map Token.type) =
      .ok [TokenType.Number, TokenType.Number, TokenType.Plus, TokenType.OpeningParenthesis] ∧
    evaluate "(1+2" = .ok (.finite 3) := by
  decide

/-- C2: the claim says an operator reached with fewer than two stack
values must fail with `InsufficientOperands` at that point; the code
instead discards the lone operand and keeps processing the remaining
tokens, so the postfix sequence `[3, *, 4]` evaluates to `Ok(4.0)`. -/
theorem c2_insufficient_operands_skipped :
    calculate [⟨TokenType.Number, .finite 3, 0, .Right⟩,
               ⟨TokenType.Multiply, .finite 0, 3, .Left⟩,
               ⟨TokenType.Number, .finite 4, 0, .Right⟩] = .ok (.finite 4) ∧
    calcStep [.finite 3] ⟨TokenType.Multiply, .finite 0, 3, .Left⟩ = .ok [] := by
  decide

/-- C3: the claim says `tokenize` never panics and an invalid lexeme such
as `"1.2.3"` surfaces as an `InvalidLexeme` error value; the code calls
`Token::new(&buffer).unwrap()`, so the `Err` that `Token::new` produces
for `"1.2.3"` aborts the program instead of being returned. -/
theorem c3_tokenize_panics_on_invalid_lexeme :
    tokenize "1.2.3" = .error .panicked ∧
    Token.new "1.2.3".data = .error .invalidLexeme := by
  decide

/-- C4 counterexample: the claim predicts
`tokenize "2+*3" = [Number, Plus, Multiply, Number]`, but the `OPERATOR`
state of the lexer has no transition for an operator character, so the
`*` is silently dropped. -/
theorem c4_counterexample :
    (tokenize "2+*3").map (List.map Token.type) ≠
      .ok [TokenType.Number, TokenType.Plus, TokenType.Multiply, TokenType.Number] := by
  decide

/-- C4 (amended): in the `OPERATOR` state a parenthesis closes the
current lexeme and starts a parenthesis lexeme, but an operator
character matches no transition and is silently discarded, so
`tokenize "2+*3"` yields the kinds `Number, Plus, Number`. -/
theorem c4_operator_state_transitions :
    (∀ (st : LexSt) (c : Char), st.state = .OPERATOR → (c = '(' ∨ c = ')') →
      lexStep st c = (pushTok st.buffer st.v).map (fun v => ⟨v, .PARENTHESIS, [c]⟩)) ∧
    (∀ (st : LexSt) (c : Char), st.state = .OPERATOR →
      (c = '^' ∨ c = '*' ∨ c = '/' ∨ c = '+') → lexStep st c = .ok st) ∧
    (tokenize "2+*3").map (List.map Token.type) =
      .ok [TokenType.Number, TokenType.Plus, TokenType.Number] := by
  refine ⟨fun st c hst hc => ?_, fun st c hst hc => ?_, by decide⟩
  · rcases hc with rfl | rfl <;> simp [lexStep, hst]
  · rcases hc with rfl | rfl | rfl | rfl <;> simp [lexStep, hst]

/-- C4 witness: the discard transition at a concrete state and
character. -/
theorem c4_operator_state_transitions_witness :
    lexStep ⟨[], .OPERATOR, ['+']⟩ '*' = .ok ⟨[], .OPERATOR, ['+']⟩ :=
  c4_operator_state_transitions.2.1 ⟨[], .OPERATOR, ['+']⟩ '*' rfl (Or.inr (Or.inl rfl))

/-- C5: multiplication binds tighter than addition in both textual
orders. -/
theorem c5_precedence :
    evaluate "2+3*4" = .ok (.finite 14) ∧ evaluate "2*3+4" = .ok (.finite 10) := by
  decide

/-- C6: the power operator is right-associative, so `2^2^3` groups as
`2^(2^3) = 256` and not `(2^2)^3 = 64`. -/
theorem c6_power_right_assoc :
    evaluate "2^2^3" = .ok (.finite 256) ∧ evaluate "2^2^3" ≠ .ok (.finite 64) := by
  decide

/-- C7: a `-` in the `OPERATOR`, `PARENTHESIS` or start (`NONE`) state
begins a number lexeme instead of an operator lexeme, so the minus sign
folds into the following numeric literal: `6--2 = 8`, `4*-2 = -8`,
`2^-2 = 0.25`. -/
theorem c7_unary_minus_folds_into_number :
    (∀ st : LexSt, st.state = .OPERATOR →
      lexStep st '-' = (pushTok st.buffer st.v).map (fun v => ⟨v, .Number, ['-']⟩)) ∧
    (∀ st : LexSt, st.state = .PARENTHESIS →
      lexStep st '-' = (pushTok st.buffer st.v).map (fun v => ⟨v, .Number, ['-']⟩)) ∧
    (∀ st : LexSt, st.state = .NONE →
      lexStep st '-' = .ok ⟨st.v, .Number, st.buffer ++ ['-']⟩) ∧
    evaluate "6--2" = .ok (.finite 8) ∧
    evaluate "4*-2" = .ok (.finite (-8)) ∧
    evaluate "2^-2" = .ok (.finite (mkRat 1 4)) := by
  refine ⟨fun st hst => ?_, fun st hst => ?_, fun st hst => ?_, by decide, by decide, by decide⟩
  all_goals simp [lexStep, hst]

/-- C7 witness: the folding transition at a concrete state, plus one of
the concrete evaluations. -/
theorem c7_unary_minus_folds_into_number_witness :
    lexStep ⟨[], .OPERATOR, ['^']⟩ '-' =
      (pushTok ['^'] []).map (fun v => ⟨v, .Number, ['-']⟩) :=
  c7_unary_minus_folds_into_number.1 ⟨[], .OPERATOR, ['^']⟩ rfl

/-- Closing-parenthesis processing with no `OpeningParenthesis` anywhere
in the operator stack empties the stack and fails. -/
theorem popUntilOpen_of_no_open :
    ∀ (stack out : List Token), (∀ s ∈ stack, s.type ≠ TokenType.OpeningParenthesis) →
      popUntilOpen out stack = .error .expectedOpeningBracket := by
  intro stack
  induction stack with
  | nil => intro out _; rfl
  | cons s rest ih =>
    intro out h
    have hs : s.type ≠ TokenType.OpeningParenthesis := h s (List.mem_cons_self s rest)
    simp only [popUntilOpen, if_neg hs]
    exact ih _ (fun u hu => h u (List.mem_cons_of_mem s hu))

/-- C8: when the converter meets a `ClosingParaenthesis` and the operator
stack holds no `OpeningParenthesis`, it fails at that token with the
"Expected opening bracket" error, and in particular `evaluate "1+2)"`
fails with it. -/
theorem c8_unmatched_closing_paren_fails :
    (∀ (st : SYSt) (t : Token), t.type = .ClosingParaenthesis →
      (∀ s ∈ st.stack, s.type ≠ TokenType.OpeningParenthesis) →
      syStep st t = .error .expectedOpeningBracket) ∧
    evaluate "1+2)" = .error .expectedOpeningBracket := by
  refine ⟨fun st t ht hstk => ?_, by decide⟩
  simp only [syStep, ht]
  exact popUntilOpen_of_no_open st.stack st.rpn hstk

/-- C8 witness: the failure at a concrete converter state and token. -/
theorem c8_unmatched_closing_paren_fails_witness :
    syStep ⟨[], []⟩ ⟨TokenType.ClosingParaenthesis, .finite 0, 0, .Right⟩ =
      .error .expectedOpeningBracket :=
  c8_unmatched_closing_paren_fails.1 ⟨[], []⟩
    ⟨TokenType.ClosingParaenthesis, .finite 0, 0, .Right⟩ rfl (by simp)

/-- C9: a `Divide` token with two operands on the stack always pushes
the IEEE-754 quotient and never produces an error — dividing by zero
included — and `evaluate "1/0"` returns positive infinity. -/
theorem c9_division_by_zero_not_an_error :
    (∀ (t : Token) (r l : R) (rest : List R), t.type = .Divide →
      calcStep (r :: l :: rest) t = .ok (l.div r :: rest)) ∧
    evaluate "1/0" = .ok .posInf := by
  refine ⟨fun t r l rest ht => ?_, by decide⟩
  simp [calcStep, Token.isOperator, applyOp, Except.map, ht]

/-- C9 witness: the division step at the concrete operands `1` and `0`,
where the pushed value is `+inf`. -/
theorem c9_division_by_zero_not_an_error_witness :
    calcStep [.finite 0, .finite 1] ⟨TokenType.Divide, .finite 0, 3, .Left⟩ =
      .ok [R.posInf] :=
  c9_division_by_zero_not_an_error.1 ⟨TokenType.Divide, .finite 0, 3, .Left⟩
    (.finite 0) (.finite 1) [] rfl

/-- C10: an operator token reached with exactly one stack value pops and
discards that value and the evaluation continues instead of failing, so
the malformed input `"(*3)4"` evaluates to `Ok(4.0)`. -/
theorem c10_single_operand_silently_discarded :
    (∀ (t : Token) (x : R), t.isOperator = true → calcStep [x] t = .ok []) ∧
    evaluate "(*3)4" = .ok (.finite 4) := by
  refine ⟨fun t x hop => ?_, by decide⟩
  cases ht : t.type <;> simp_all [calcStep, Token.isOperator, ht]

/-- C10 witness: the discarding step at a concrete operator token and
value. -/
theorem c10_single_operand_silently_discarded_witness :
    calcStep [.finite 3] ⟨TokenType.Multiply, .finite 0, 3, .Left⟩ = .ok [] :=
  c10_single_operand_silently_discarded.1 ⟨TokenType.Multiply, .finite 0, 3, .Left⟩
    (.finite 3) rfl

end RCalc
